import Mathlib

/-!
Verification of the table-endpoint request handler of a generic
REST-over-database gateway (`app.py`).

The development shallowly embeds the handler's pure logic:

* `pyInt` models Python's `int(str)` conversion (whitespace stripping,
  optional sign, digits with single interior underscores);
* `castLimit` embeds `cast_limit`;
* `buildFilters` embeds `build_filters`, `parseOrder` embeds `parse_order`,
  `payloadKnownColumns` embeds `payload_known_columns`,
  `requirePkParams` embeds `require_pk_params`;
* `handler` embeds the per-table request handler registered by
  `register_table_endpoint`, with the external database engine modelled as a
  list of string-valued rows and each executed SQL statement recorded in the
  result's `stmts` trace.
-/

namespace Tolling

/-- A query-parameter set: ordered key/value pairs, as Flask's `request.args`
(first binding wins on lookup, iteration in insertion order). -/
abbrev Args := List (String × String)

/-- Dictionary lookup `args.get(k)`: `None` when the key is absent. -/
def Args.get (args : Args) (k : String) : Option String :=
  (args.find? (fun p => p.1 == k)).map (·.2)

/-- Reflected structural metadata of one database table: its name, the names
of its columns (`tbl.c`), and the names of its primary-key columns
(`pk_columns`), in order. -/
structure Table where
  name : String
  columns : List String
  pk : List String
deriving Repr, DecidableEq

/-- Digit run of a Python integer literal: at least one digit, single
underscores allowed between digits (`int("1_0") = 10`). `prev` records
whether the previous character was a digit. -/
def pyDigits : List Char → Bool → Option Nat → Option Nat
  | [], prev, acc => if prev then acc else none
  | c :: rest, prev, acc =>
    if c.isDigit then
      pyDigits rest true (some ((acc.getD 0) * 10 + (c.toNat - 48)))
    else if c = '_' && prev then
      pyDigits rest false acc
    else
      none

/-- Model of Python's `int : str → int`: strip surrounding whitespace, accept
an optional sign followed by digits; `none` models the raised `ValueError`. -/
def pyInt (s : String) : Option Int :=
  let cs := s.toList.dropWhile Char.isWhitespace
  let cs := (cs.reverse.dropWhile Char.isWhitespace).reverse
  match cs with
  | '+' :: rest => (pyDigits rest false none).map Int.ofNat
  | '-' :: rest => (pyDigits rest false none).map (fun n => -(Int.ofNat n))
  | rest => (pyDigits rest false none).map Int.ofNat

/-- Embeds `cast_limit`: inside the `try`, a present value is parsed (a parse
failure escapes to the `except` and yields the bare default), an absent value
becomes the default; the `try`'s result is clamped by `max(1, min(v, max_limit))`. -/
def castLimit (limit : Option String) (default maxLimit : Int) : Int :=
  match limit with
  | none => max 1 (min default maxLimit)
  | some s =>
    match pyInt s with
    | some v => max 1 (min v maxLimit)
    | none => default

/-- One produced SQL comparison, as assembled by `build_filters`. -/
inductive FilterClause where
  | eq (col val : String)
  | gte (col val : String)
  | lte (col val : String)
  | like (col val : String)
deriving Repr, DecidableEq

/-- The four reserved query-parameter keys skipped by `build_filters`. -/
def skipKeys : List String := ["limit", "offset", "order_by", "order_dir"]

/-- Models `all(c.name in args for c in pk_columns(tbl))`: every primary-key
column name appears as a key of the parameter set. -/
def allPkPresent (tbl : Table) (args : Args) : Bool :=
  tbl.pk.all (fun c => (args.get c).isSome)

/-- One iteration of the general-filter loop of `build_filters` for key/value
`(key, val)`: reserved keys and keys matching a primary-key column name are
skipped first; then the `_gte`/`_lte`/`_like` suffixes are tried (each
`continue`s even when the stripped name is not a column); finally a bare key
naming a column yields an equality clause. -/
def generalClause (tbl : Table) (key val : String) : Option FilterClause :=
  if key ∈ skipKeys || key ∈ tbl.pk then none
  else if key.endsWith "_gte" then
    let col := key.dropRight 4
    if col ∈ tbl.columns then some (.gte col val) else none
  else if key.endsWith "_lte" then
    let col := key.dropRight 4
    if col ∈ tbl.columns then some (.lte col val) else none
  else if key.endsWith "_like" then
    let col := key.dropRight 5
    if col ∈ tbl.columns then some (.like col val) else none
  else if key ∈ tbl.columns then some (.eq key val)
  else none

/-- Embeds `build_filters`: when every primary-key column name is a parameter
key, the conjunction of equality clauses on exactly the primary-key columns is
returned; otherwise the general loop runs and `none` models the Python `None`
returned for an empty clause list (`and_(*conds) if conds else None`).
`some l` models `and_(*l)`. -/
def buildFilters (tbl : Table) (args : Args) : Option (List FilterClause) :=
  if allPkPresent tbl args then
    some (tbl.pk.map (fun c => .eq c ((args.get c).getD "")))
  else
    let conds := args.filterMap (fun p => generalClause tbl p.1 p.2)
    if conds.isEmpty then none else some conds

/-- A resolved ordering: the column plus direction (`col.asc()` / `col.desc()`). -/
inductive OrderSpec where
  | asc (col : String)
  | desc (col : String)
deriving Repr, DecidableEq

/-- Model of Python's `str.lower()` (ASCII range, which covers the literal
`"desc"`/`"asc"` comparisons made by the handler). -/
def pyLower (s : String) : String :=
  ⟨s.data.map Char.toLower⟩

/-- Embeds `parse_order`: no ordering when `order_by` is falsy (absent or
empty) or not a column; otherwise descending exactly when the lowercased
`order_dir` (defaulting to `"desc"`) equals `"desc"`, ascending for every
other value. -/
def parseOrder (tbl : Table) (args : Args) : Option OrderSpec :=
  let ob := (args.get "order_by").getD ""
  if ob = "" || ob ∉ tbl.columns then none
  else
    let direction := pyLower ((args.get "order_dir").getD "desc")
    if direction = "desc" then some (.desc ob) else some (.asc ob)

/-- A database row, modelled as an assignment of string values to column
names (the handler passes all filter values through as strings and values
round-trip through JSON; the engine's type coercion is outside the model). -/
abbrev Row := List (String × String)

/-- Value of column `c` in row `r` (`none` models SQL NULL / absent column). -/
def Row.get (r : Row) (c : String) : Option String :=
  (r.find? (fun p => p.1 == c)).map (·.2)

/-- The external database's visible state for one table: its rows in the
order the engine would return them unordered. -/
abbrev Db := List Row

/-- The HTTP responses the per-table handler can produce. -/
inductive Response where
  /-- Status 200, a single row rendered as a flat JSON object. -/
  | singleRow (row : Row)
  /-- Status 200, the list envelope of data rows plus the effective limit
  and offset. -/
  | listEnv (rows : List Row) (limit offset : Int)
  /-- Status 201, the created row. -/
  | created (row : Row)
  /-- Status 200, the deletion acknowledgment. -/
  | deleted
  /-- Status 400 via `abort(400, description=msg)`. -/
  | badRequest (msg : String)
  /-- Status 404 via `abort(404, description=msg)`. -/
  | notFound (msg : String)
  /-- Status 405 via `abort(405, description=msg)`. -/
  | methodNotAllowed (msg : String)
  /-- Status 500: an exception escaped the handler and `handle_any_error`
  rendered it as an opaque internal failure exposing the message. -/
  | internalError (msg : String)
deriving Repr, DecidableEq

/-- Kinds of SQL statements the handler can hand to the engine. -/
inductive StmtKind where
  | selectStmt
  | insertStmt
  | updateStmt
  | deleteStmt
deriving Repr, DecidableEq

/-- Outcome of one request: the response, the database state afterwards, and
the trace of statements that were actually executed on a connection. -/
structure HandlerOut where
  resp : Response
  db : Db
  stmts : List StmtKind
deriving Repr, DecidableEq

/-- The five HTTP methods routed to the per-table handler. -/
inductive Method where
  | get
  | post
  | put
  | patch
  | delete
deriving Repr, DecidableEq

/-- The configuration values the handler closes over: `DEFAULT_LIMIT`,
`MAX_LIMIT` and `READ_ONLY`. -/
structure ApiConfig where
  defaultLimit : Int
  maxLimit : Int
  readOnlyTables : List String
deriving Repr, DecidableEq

/-- Embeds `payload_known_columns`: keep only body fields naming a real
column (insertion order preserved). -/
def payloadKnownColumns (tbl : Table) (payload : List (String × String)) :
    List (String × String) :=
  payload.filter (fun p => p.1 ∈ tbl.columns)

/-- The loop of `require_pk_params` over the remaining primary-key column
names: abort 400 naming the first missing one, else collect `(name, value)`. -/
def collectPkParams (args : Args) : List String → Except Response (List (String × String))
  | [] => .ok []
  | c :: rest =>
    match args.get c with
    | none => .error (.badRequest ("Missing primary key parameter \x27" ++ c ++ "\x27"))
    | some v => (collectPkParams args rest).map (fun l => (c, v) :: l)

/-- Embeds `require_pk_params`. -/
def requirePkParams (tbl : Table) (args : Args) :
    Except Response (List (String × String)) :=
  collectPkParams args tbl.pk

/-- A row satisfies a conjunction of column-equality conditions. -/
def rowMatches (r : Row) (conds : List (String × String)) : Bool :=
  conds.all (fun p => Row.get r p.1 == some p.2)

/-- SQL `LIKE` pattern matching (`%` any run, `_` any one character), on the
already-lowercased pattern and subject; models the engine's `ILIKE`. -/
def likeMatch : List Char → List Char → Bool
  | [], s => s.isEmpty
  | '%' :: ps, s =>
    likeMatch ps s ||
      (match s with
       | [] => false
       | _ :: rest => likeMatch ('%' :: ps) rest)
  | '_' :: ps, s =>
    (match s with
     | [] => false
     | _ :: rest => likeMatch ps rest)
  | p :: ps, s =>
    (match s with
     | [] => false
     | c :: rest => p == c && likeMatch ps rest)
termination_by ps s => (ps.length, s.length)

/-- Evaluation of one filter clause on a row: the external engine's
semantics over the string-valued store (comparisons lexicographic, NULL
comparisons false, `ILIKE` case-insensitive pattern match). -/
def evalClause (r : Row) : FilterClause → Bool
  | .eq c v => Row.get r c == some v
  | .gte c v =>
    match Row.get r c with
    | some x => decide (v ≤ x)
    | none => false
  | .lte c v =>
    match Row.get r c with
    | some x => decide (x ≤ v)
    | none => false
  | .like c v =>
    match Row.get r c with
    | some x => likeMatch (pyLower v).data (pyLower x).data
    | none => false

/-- Models `stmt.where(w)`: keep the rows satisfying the conjunction; a
`None` filter keeps everything. -/
def applyWhere (w : Option (List FilterClause)) (db : Db) : List Row :=
  match w with
  | none => db
  | some cs => db.filter (fun r => cs.all (evalClause r))

/-- Comparison used by the engine's ORDER BY on column `col` (missing values
sort first, as the empty string). -/
def rowLeCol (col : String) (a b : Row) : Bool :=
  decide (((Row.get a col).getD "") ≤ ((Row.get b col).getD ""))

/-- Insertion into a list sorted by `le`. -/
def insertSorted (le : Row → Row → Bool) (r : Row) : List Row → List Row
  | [] => [r]
  | x :: xs => if le r x then r :: x :: xs else x :: insertSorted le r xs

/-- Insertion sort; models the engine's ORDER BY. -/
def sortRows (le : Row → Row → Bool) : List Row → List Row
  | [] => []
  | x :: xs => insertSorted le x (sortRows le xs)

/-- Models `stmt.order_by(order)`: no ordering when `parse_order` returned
`None`. -/
def applyOrder : Option OrderSpec → List Row → List Row
  | none, rows => rows
  | some (.asc c), rows => sortRows (rowLeCol c) rows
  | some (.desc c), rows => sortRows (fun a b => rowLeCol c b a) rows

/-- Models `int(request.args.get("offset", 0))`: absent defaults to `0`; a
present value must parse or the `ValueError` escapes the handler. -/
def pyOffset (args : Args) : Except String Int :=
  match args.get "offset" with
  | none => .ok 0
  | some v =>
    match pyInt v with
    | some n => .ok n
    | none => .error ("invalid literal for int() with base 10: \x27" ++ v ++ "\x27")

/-- GET single-row path (all primary-key parameters present): select with
exact PK equality, `limit(1)`, `.first()`; 404 when no row matches. -/
def getSingle (tbl : Table) (args : Args) (db : Db) : HandlerOut :=
  let conds := tbl.pk.map (fun c => (c, (args.get c).getD ""))
  match db.find? (fun r => rowMatches r conds) with
  | some r => ⟨.singleRow r, db, [.selectStmt]⟩
  | none => ⟨.notFound "Not found", db, [.selectStmt]⟩

/-- GET list path: clamp the limit, parse the offset (an unparseable offset
raises before any statement is built and surfaces as a 500), build filters
and ordering, run the select, and answer with the envelope. The executor's
OFFSET/LIMIT are modelled by `drop`/`take` (negative values clamp to 0). -/
def getList (tbl : Table) (cfg : ApiConfig) (args : Args) (db : Db) : HandlerOut :=
  let limit := castLimit (args.get "limit") cfg.defaultLimit cfg.maxLimit
  match pyOffset args with
  | .error msg => ⟨.internalError msg, db, []⟩
  | .ok offset =>
    let w := buildFilters tbl args
    let o := parseOrder tbl args
    let rows := ((applyOrder o (applyWhere w db)).drop offset.toNat).take limit.toNat
    ⟨.listEnv rows limit offset, db, [.selectStmt]⟩

/-- POST path: read-only check, then drop unknown body fields; an empty
result aborts 400 before any statement; otherwise the insert runs and the
new row comes back (server-side defaults are outside the model). -/
def handlePost (tbl : Table) (cfg : ApiConfig) (body : Option (List (String × String)))
    (db : Db) : HandlerOut :=
  if tbl.name ∈ cfg.readOnlyTables then
    ⟨.methodNotAllowed ("Table \x27" ++ tbl.name ++ "\x27 is read-only"), db, []⟩
  else
    let payload := payloadKnownColumns tbl (body.getD [])
    if payload.isEmpty then ⟨.badRequest "Empty payload or unknown fields", db, []⟩
    else ⟨.created payload, db ++ [payload], [.insertStmt]⟩

/-- Overwrite in `r` the columns present in `payload`. -/
def overwriteRow (r : Row) (payload : List (String × String)) : Row :=
  r.map (fun p =>
    match payload.find? (fun q => q.1 == p.1) with
    | some q => (p.1, q.2)
    | none => p)

/-- PUT/PATCH path (identical semantics): read-only check, full PK
parameters required, body filtered to known columns and required non-empty;
the update executes (and commits) even when no row matches, then a miss
aborts 404. -/
def handleUpdate (tbl : Table) (cfg : ApiConfig) (args : Args)
    (body : Option (List (String × String))) (db : Db) : HandlerOut :=
  if tbl.name ∈ cfg.readOnlyTables then
    ⟨.methodNotAllowed ("Table \x27" ++ tbl.name ++ "\x27 is read-only"), db, []⟩
  else
    match requirePkParams tbl args with
    | .error resp => ⟨resp, db, []⟩
    | .ok pkd =>
      let payload := payloadKnownColumns tbl (body.getD [])
      if payload.isEmpty then ⟨.badRequest "Empty payload or unknown fields", db, []⟩
      else
        let db' := db.map (fun r => if rowMatches r pkd then overwriteRow r payload else r)
        match db.find? (fun r => rowMatches r pkd) with
        | some m => ⟨.singleRow (overwriteRow m payload), db', [.updateStmt]⟩
        | none => ⟨.notFound "Not found", db', [.updateStmt]⟩

/-- DELETE path: read-only check, full PK parameters required; the delete
executes (and commits) even when no row matches, then a miss aborts 404. -/
def handleDelete (tbl : Table) (cfg : ApiConfig) (args : Args) (db : Db) : HandlerOut :=
  if tbl.name ∈ cfg.readOnlyTables then
    ⟨.methodNotAllowed ("Table \x27" ++ tbl.name ++ "\x27 is read-only"), db, []⟩
  else
    match requirePkParams tbl args with
    | .error resp => ⟨resp, db, []⟩
    | .ok pkd =>
      let db' := db.filter (fun r => !(rowMatches r pkd))
      match db.find? (fun r => rowMatches r pkd) with
      | some _ => ⟨.deleted, db', [.deleteStmt]⟩
      | none => ⟨.notFound "Not found", db', [.deleteStmt]⟩

/-- Embeds the `handler` closure of `register_table_endpoint`: a GET with
every primary-key parameter present takes the single-row path, any other GET
the list path; POST/PUT/PATCH/DELETE dispatch to their branches. -/
def handler (tbl : Table) (cfg : ApiConfig) (method : Method) (args : Args)
    (body : Option (List (String × String))) (db : Db) : HandlerOut :=
  match method with
  | .get => if allPkPresent tbl args then getSingle tbl args db else getList tbl cfg args db
  | .post => handlePost tbl cfg body db
  | .put => handleUpdate tbl cfg args body db
  | .patch => handleUpdate tbl cfg args body db
  | .delete => handleDelete tbl cfg args db

end Tolling

namespace Tolling

example : pyInt "12" = some 12 := by decide
example : pyInt "abc" = none := by decide
example : pyInt " -7 " = some (-7) := by decide
example : pyInt "1_0" = some 10 := by decide
example : pyInt "" = none := by decide
example : castLimit (some "5000") 100 1000 = 1000 := by decide
example : castLimit (some "abc") 5000 1000 = 5000 := by decide
example : castLimit none 5000 1000 = 1000 := by decide
example : parseOrder ⟨"t", ["x"], []⟩ [("order_by", "x"), ("order_dir", "up")]
    = some (.asc "x") := by decide
example : parseOrder ⟨"t", ["x"], []⟩ [("order_by", "x")]
    = some (.desc "x") := by decide
example : buildFilters ⟨"t", ["a", "b", "x"], ["a", "b"]⟩
    [("a", "1"), ("b", "2"), ("x", "3")]
    = some [.eq "a" "1", .eq "b" "2"] := by decide
example : buildFilters ⟨"t", ["id", "id_gte", "other"], ["id_gte", "other"]⟩
    [("id_gte", "5")] = none := by decide

/-- When every queried primary-key parameter is present,
`require_pk_params` collects the primary-key column names with their raw
string values, in primary-key order. -/
theorem collectPkParams_ok (args : Args) (l : List String)
    (h : ∀ c ∈ l, (args.get c).isSome) :
    collectPkParams args l = .ok (l.map (fun c => (c, (args.get c).getD ""))) := by
  induction l with
  | nil => rfl
  | cons c rest ih =>
    have hc := h c (List.mem_cons_self c rest)
    match hv : args.get c with
    | none => rw [hv] at hc; simp at hc
    | some v =>
      have ihh := ih (fun x hx => h x (List.mem_cons_of_mem c hx))
      simp [collectPkParams, hv, ihh, Except.map]

/-- C1 counterexample: with a valid `order_by` column and `order_dir=up` — a
value that does not case-insensitively equal `asc` — `parse_order` resolves
an ascending sort, refuting the claim that every value other than `asc`
yields a descending sort. -/
theorem parse_order_claim_counterexample :
    parseOrder ⟨"t", ["x"], []⟩ [("order_by", "x"), ("order_dir", "up")]
      = some (OrderSpec.asc "x") ∧
    pyLower "up" ≠ "asc" ∧ pyLower "up" ≠ "desc" := by
  decide

/-- C1 (amended): when `order_by` names a real column, the resolved sort is
descending exactly when `order_dir` is absent or its lowercased value equals
`desc`, and ascending for every other `order_dir` value. -/
theorem parse_order_direction (tbl : Table) (args : Args) (ob : String)
    (hob : (args.get "order_by").getD "" = ob) (hne : ob ≠ "")
    (hcol : ob ∈ tbl.columns) :
    (parseOrder tbl args = some (OrderSpec.desc ob) ↔
      pyLower ((args.get "order_dir").getD "desc") = "desc") ∧
    (parseOrder tbl args = some (OrderSpec.asc ob) ↔
      pyLower ((args.get "order_dir").getD "desc") ≠ "desc") := by
  by_cases h : pyLower ((args.get "order_dir").getD "desc") = "desc" <;>
    simp [parseOrder, hob, hne, hcol, h]

/-- C1 witness: the uppercase value `ASC` resolves to an ascending sort. -/
theorem parse_order_direction_witness :
    parseOrder ⟨"t", ["x"], []⟩ [("order_by", "x"), ("order_dir", "ASC")]
      = some (OrderSpec.asc "x") :=
  ((parse_order_direction ⟨"t", ["x"], []⟩ [("order_by", "x"), ("order_dir", "ASC")]
    "x" (by decide) (by decide) (by decide)).2).mpr (by decide)

/-- C2: for a composite-primary-key table, a GET whose parameters name only a
proper subset of the primary-key columns takes the list path, never the
single-row path; every such key is a primary-key name, hence not a plain
(non-primary-key) column key, so the general loop produces no clause and the
list query carries no filter. -/
theorem pk_subset_takes_list_path (tbl : Table) (cfg : ApiConfig) (args : Args)
    (body : Option (List (String × String))) (db : Db)
    (_hcomp : 2 ≤ tbl.pk.length)
    (hsub : ∀ p ∈ args, p.1 ∈ tbl.pk)
    (hmiss : ∃ c ∈ tbl.pk, args.get c = none) :
    handler tbl cfg .get args body db = getList tbl cfg args db ∧
    buildFilters tbl args = none := by
  obtain ⟨c, hc, hnone⟩ := hmiss
  have hap : allPkPresent tbl args = false := by
    rw [allPkPresent, List.all_eq_false]
    exact ⟨c, hc, by simp [hnone]⟩
  have hconds : args.filterMap (fun p => generalClause tbl p.1 p.2) = [] := by
    rw [List.filterMap_eq_nil_iff]
    intro p hp
    simp [generalClause, hsub p hp]
  exact ⟨by simp [handler, hap], by simp [buildFilters, hap, hconds]⟩

/-- C2 witness: supplying only `a` of the primary key `(a, b)` lists with no
filter. -/
theorem pk_subset_takes_list_path_witness :
    handler ⟨"t", ["a", "b", "x"], ["a", "b"]⟩ ⟨100, 1000, []⟩ .get
        [("a", "1")] none []
      = getList ⟨"t", ["a", "b", "x"], ["a", "b"]⟩ ⟨100, 1000, []⟩ [("a", "1")] [] ∧
    buildFilters ⟨"t", ["a", "b", "x"], ["a", "b"]⟩ [("a", "1")] = none :=
  pk_subset_takes_list_path ⟨"t", ["a", "b", "x"], ["a", "b"]⟩ ⟨100, 1000, []⟩
    [("a", "1")] none [] (by decide) (by decide) ⟨"b", by decide, by decide⟩

/-- C3 counterexample: with configured default 5000 and maximum 1000, a
non-numeric limit returns the default unclamped — 5000, above the maximum and
outside the claimed inclusive range — while the same default is clamped to
1000 when the limit is absent. -/
theorem cast_limit_claim_counterexample :
    castLimit (some "abc") 5000 1000 = 5000 ∧
    castLimit none 5000 1000 = 1000 ∧
    ¬ castLimit (some "abc") 5000 1000 ≤ 1000 := by
  decide

/-- C3 (amended): an absent limit uses the configured default clamped to the
inclusive range `[1, max]`; a parseable value is clamped to the same range,
so a requested value above the maximum saturates to the maximum without
error; a non-numeric value returns the configured default without clamping. -/
theorem cast_limit_spec (s : String) (d m : Int) :
    castLimit none d m = max 1 (min d m) ∧
    (pyInt s = none → castLimit (some s) d m = d) ∧
    (∀ v, pyInt s = some v → castLimit (some s) d m = max 1 (min v m)) := by
  refine ⟨rfl, fun h => ?_, fun v h => ?_⟩
  · simp [castLimit, h]
  · simp [castLimit, h]

/-- C3 witness: the three branches at concrete inputs, including the
saturation of 2000 to the maximum 1000. -/
theorem cast_limit_spec_witness :
    castLimit none 5000 1000 = max 1 (min 5000 1000) ∧
    castLimit (some "zz") 5000 1000 = 5000 ∧
    castLimit (some "2000") 100 1000 = max 1 (min 2000 1000) :=
  ⟨(cast_limit_spec "zz" 5000 1000).1,
   (cast_limit_spec "zz" 5000 1000).2.1 (by decide),
   (cast_limit_spec "2000" 100 1000).2.2 2000 (by decide)⟩

/-- C4: when the table has a non-empty primary key and every primary-key
column name appears among the parameters, `build_filters` returns exactly the
conjunction of equality clauses on the primary-key columns with their raw
string values; the clause list is indexed by the primary-key columns alone,
so no clause derived from any other parameter is included. -/
theorem build_filters_pk_fast_path (tbl : Table) (args : Args)
    (_hpk : tbl.pk ≠ []) (hall : allPkPresent tbl args = true) :
    buildFilters tbl args
      = some (tbl.pk.map (fun c => FilterClause.eq c ((args.get c).getD ""))) := by
  simp [buildFilters, hall]

/-- C4 witness: with primary key `(a, b)` both present, the extra parameter
`x` contributes no clause. -/
theorem build_filters_pk_fast_path_witness :
    buildFilters ⟨"t", ["a", "b", "x"], ["a", "b"]⟩
        [("a", "1"), ("b", "2"), ("x", "3")]
      = some [FilterClause.eq "a" "1", FilterClause.eq "b" "2"] := by
  rw [build_filters_pk_fast_path ⟨"t", ["a", "b", "x"], ["a", "b"]⟩
    [("a", "1"), ("b", "2"), ("x", "3")] (by decide) (by decide)]
  decide

/-- C5: in the general-filter fallback, a key equal to a primary-key column
name is eliminated by the PK-name check before any suffix is examined, so it
contributes no clause — even when, as for a primary-key column literally
named `id_gte`, stripping the suffix would name a real column. -/
theorem general_filter_skips_pk_names (tbl : Table) (key val : String)
    (hk : key ∈ tbl.pk) :
    generalClause tbl key val = none := by
  simp [generalClause, hk]

/-- C5 witness: primary key `(id_gte, other)` with column `id` also present;
the lone parameter `id_gte` is skipped by the PK-name check (suffix matching
would have produced a range clause on `id`), so no filter at all results. -/
theorem general_filter_skips_pk_names_witness :
    generalClause ⟨"t", ["id", "id_gte", "other"], ["id_gte", "other"]⟩
        "id_gte" "5" = none ∧
    buildFilters ⟨"t", ["id", "id_gte", "other"], ["id_gte", "other"]⟩
        [("id_gte", "5")] = none :=
  ⟨general_filter_skips_pk_names ⟨"t", ["id", "id_gte", "other"], ["id_gte", "other"]⟩
      "id_gte" "5" (by decide),
   by decide⟩

/-- C6 counterexample: a POST with an unknown-field-only payload against a
read-only table is answered 405 Method-Not-Allowed, not 400 Bad-Request — the
read-only check precedes payload validation. -/
theorem post_unknown_fields_counterexample :
    handler ⟨"t", ["a"], ["a"]⟩ ⟨100, 1000, ["t"]⟩ .post [] (some [("zzz", "1")]) []
      = ⟨.methodNotAllowed "Table \x27t\x27 is read-only", [], []⟩ ∧
    (handler ⟨"t", ["a"], ["a"]⟩ ⟨100, 1000, ["t"]⟩ .post [] (some [("zzz", "1")])
        []).resp
      ≠ .badRequest "Empty payload or unknown fields" := by
  decide

/-- C6 (amended): for every table not configured read-only, a POST whose body
fields name no column of the table (or whose body is empty) is rejected 400
Bad-Request before any statement is executed, leaving the database unchanged. -/
theorem post_unknown_fields_bad_request (tbl : Table) (cfg : ApiConfig)
    (args : Args) (body : Option (List (String × String))) (db : Db)
    (hro : tbl.name ∉ cfg.readOnlyTables)
    (hunk : ∀ p ∈ body.getD [], p.1 ∉ tbl.columns) :
    handler tbl cfg .post args body db
      = ⟨.badRequest "Empty payload or unknown fields", db, []⟩ := by
  have hpay : payloadKnownColumns tbl (body.getD []) = [] := by
    rw [payloadKnownColumns, List.filter_eq_nil_iff]
    intro p hp
    simpa using hunk p hp
  simp [handler, handlePost, hro, hpay]

/-- C6 witness: a writable table rejects the unknown-field payload with 400
and the database row is untouched. -/
theorem post_unknown_fields_bad_request_witness :
    handler ⟨"t", ["a"], ["a"]⟩ ⟨100, 1000, []⟩ .post [] (some [("zzz", "1")])
        [[("a", "1")]]
      = ⟨.badRequest "Empty payload or unknown fields", [[("a", "1")]], []⟩ :=
  post_unknown_fields_bad_request ⟨"t", ["a"], ["a"]⟩ ⟨100, 1000, []⟩ []
    (some [("zzz", "1")]) [[("a", "1")]] (by decide) (by decide)

/-- C7: for a table in the configured read-only set, every POST, PUT, PATCH
and DELETE answers 405 Method-Not-Allowed whatever the body or parameters —
the read-only check precedes payload and primary-key validation — with no
statement executed and the database untouched. -/
theorem read_only_writes_rejected (tbl : Table) (cfg : ApiConfig) (method : Method)
    (args : Args) (body : Option (List (String × String))) (db : Db)
    (hro : tbl.name ∈ cfg.readOnlyTables)
    (hm : method = .post ∨ method = .put ∨ method = .patch ∨ method = .delete) :
    handler tbl cfg method args body db
      = ⟨.methodNotAllowed ("Table \x27" ++ tbl.name ++ "\x27 is read-only"), db, []⟩ := by
  rcases hm with h | h | h | h <;> subst h <;>
    simp [handler, handlePost, handleUpdate, handleDelete, hro]

/-- C7 witness: a PUT with a valid primary-key parameter and a valid payload
against a read-only table still answers 405. -/
theorem read_only_writes_rejected_witness :
    handler ⟨"t", ["a"], ["a"]⟩ ⟨100, 1000, ["t"]⟩ .put [("a", "1")]
        (some [("a", "2")]) [[("a", "1")]]
      = ⟨.methodNotAllowed "Table \x27t\x27 is read-only", [[("a", "1")]], []⟩ := by
  rw [read_only_writes_rejected ⟨"t", ["a"], ["a"]⟩ ⟨100, 1000, ["t"]⟩ .put
    [("a", "1")] (some [("a", "2")]) [[("a", "1")]] (by decide)
    (Or.inr (Or.inl rfl))]
  decide

/-- C8: deleting by a full primary key that matches no row answers 404
Not-Found and leaves the database unchanged (the delete statement executes
but removes nothing), and repeating the identical request on the resulting
state yields the same outcome — deletion of an absent key is idempotent. -/
theorem delete_absent_key_idempotent (tbl : Table) (cfg : ApiConfig) (args : Args)
    (body : Option (List (String × String))) (db : Db)
    (hro : tbl.name ∉ cfg.readOnlyTables)
    (hfull : ∀ c ∈ tbl.pk, (args.get c).isSome)
    (hmiss : ∀ r ∈ db,
      rowMatches r (tbl.pk.map (fun c => (c, (args.get c).getD ""))) = false) :
    handler tbl cfg .delete args body db
      = ⟨.notFound "Not found", db, [.deleteStmt]⟩ ∧
    handler tbl cfg .delete args body
        (handler tbl cfg .delete args body db).db
      = ⟨.notFound "Not found", db, [.deleteStmt]⟩ := by
  have hpkd := collectPkParams_ok args tbl.pk hfull
  have hfind : db.find?
      (fun r => rowMatches r (tbl.pk.map (fun c => (c, (args.get c).getD "")))) = none :=
    List.find?_eq_none.mpr (fun r hr => by simp [hmiss r hr])
  have hfilter : db.filter
      (fun r => !(rowMatches r (tbl.pk.map (fun c => (c, (args.get c).getD ""))))) = db :=
    List.filter_eq_self.mpr (fun r hr => by simp [hmiss r hr])
  have h1 : handler tbl cfg .delete args body db
      = ⟨.notFound "Not found", db, [.deleteStmt]⟩ := by
    simp [handler, handleDelete, hro, requirePkParams, hpkd, hfind, hfilter]
  exact ⟨h1, by rw [h1]; exact h1⟩

/-- C8 witness: deleting the absent key 9 twice from a one-row table answers
404 both times and the row survives. -/
theorem delete_absent_key_idempotent_witness :
    handler ⟨"t", ["a"], ["a"]⟩ ⟨100, 1000, []⟩ .delete [("a", "9")] none
        [[("a", "1")]]
      = ⟨.notFound "Not found", [[("a", "1")]], [.deleteStmt]⟩ ∧
    handler ⟨"t", ["a"], ["a"]⟩ ⟨100, 1000, []⟩ .delete [("a", "9")] none
        (handler ⟨"t", ["a"], ["a"]⟩ ⟨100, 1000, []⟩ .delete [("a", "9")] none
          [[("a", "1")]]).db
      = ⟨.notFound "Not found", [[("a", "1")]], [.deleteStmt]⟩ :=
  delete_absent_key_idempotent ⟨"t", ["a"], ["a"]⟩ ⟨100, 1000, []⟩ [("a", "9")]
    none [[("a", "1")]] (by decide) (by decide) (by decide)

/-- C9: for a table whose reflected primary key has no columns, every GET —
whatever the parameters — takes the single-row path (the
all-primary-keys-present check is vacuously true over the empty column set),
answering the first row of the table as a flat object, or 404 when the table
is empty, and never the list envelope. -/
theorem empty_pk_get_single_row (tbl : Table) (cfg : ApiConfig) (args : Args)
    (body : Option (List (String × String))) (db : Db)
    (hpk : tbl.pk = []) :
    handler tbl cfg .get args body db
      = ⟨match db.head? with
          | some r => .singleRow r
          | none => .notFound "Not found",
         db, [.selectStmt]⟩ ∧
    ∀ rows l o, (handler tbl cfg .get args body db).resp ≠ .listEnv rows l o := by
  have hall : allPkPresent tbl args = true := by simp [allPkPresent, hpk]
  have hmain : handler tbl cfg .get args body db
      = ⟨match db.head? with
          | some r => .singleRow r
          | none => .notFound "Not found",
         db, [.selectStmt]⟩ := by
    cases db with
    | nil => simp [handler, hall, getSingle, hpk, rowMatches]
    | cons r rest => simp [handler, hall, getSingle, hpk, rowMatches, List.find?]
  refine ⟨hmain, fun rows l o => ?_⟩
  rw [hmain]
  cases db <;> simp

/-- C9 witness: a two-row table with no primary key and list-style parameters
still answers the first row flat. -/
theorem empty_pk_get_single_row_witness :
    handler ⟨"v", ["x"], []⟩ ⟨100, 1000, []⟩ .get [("limit", "5")] none
        [[("x", "1")], [("x", "2")]]
      = ⟨.singleRow [("x", "1")], [[("x", "1")], [("x", "2")]], [.selectStmt]⟩ ∧
    (handler ⟨"v", ["x"], []⟩ ⟨100, 1000, []⟩ .get [("limit", "5")] none
        [[("x", "1")], [("x", "2")]]).resp ≠ .listEnv [[("x", "1")]] 100 0 := by
  have h := empty_pk_get_single_row ⟨"v", ["x"], []⟩ ⟨100, 1000, []⟩ [("limit", "5")]
    none [[("x", "1")], [("x", "2")]] rfl
  exact ⟨by rw [h.1]; rfl, h.2 [[("x", "1")]] 100 0⟩

/-- C10: on the GET list path, a present but unparseable `offset` raises an
uncaught conversion error that surfaces as an opaque 500 internal failure
with no statement executed — unlike a non-numeric `limit`, which `cast_limit`
converts into the configured default. -/
theorem bad_offset_internal_error (tbl : Table) (cfg : ApiConfig) (args : Args)
    (body : Option (List (String × String))) (db : Db) (v : String)
    (hlist : allPkPresent tbl args = false)
    (hoff : args.get "offset" = some v)
    (hbad : pyInt v = none) :
    handler tbl cfg .get args body db
      = ⟨.internalError ("invalid literal for int() with base 10: \x27" ++ v ++ "\x27"),
         db, []⟩ ∧
    castLimit (some v) cfg.defaultLimit cfg.maxLimit = cfg.defaultLimit := by
  refine ⟨?_, by simp [castLimit, hbad]⟩
  simp [handler, hlist, getList, pyOffset, hoff, hbad]

/-- C10 witness: a GET list request with `offset=abc` answers the 500 error
carrying the conversion message, while the same value as `limit` would have
fallen back to the default 100. -/
theorem bad_offset_internal_error_witness :
    handler ⟨"t", ["a"], ["a"]⟩ ⟨100, 1000, []⟩ .get [("offset", "abc")] none []
      = ⟨.internalError "invalid literal for int() with base 10: \x27abc\x27", [], []⟩ ∧
    castLimit (some "abc") 100 1000 = 100 := by
  have h := bad_offset_internal_error ⟨"t", ["a"], ["a"]⟩ ⟨100, 1000, []⟩
    [("offset", "abc")] none [] "abc" (by decide) (by decide) (by decide)
  exact ⟨by rw [h.1]; decide, h.2⟩

end Tolling
